import Mathlib

/-!
Shallow embedding of the VoiceNotes pipeline core
(`voice_notes/transcribe.py`, `voice_notes/whisperx_tools.py`,
`voice_notes/formatting.py`, `voice_notes/summarize.py`, `voice_notes/cli.py`).

Loosely-typed Python values are modelled by the inductive `PyVal`
(numeric timestamps are modelled as integers; the claims never inspect
fractional values).  Python exceptions are modelled by `PyErr`, fallible
functions return `Except PyErr _`.  Calls into the external whisperx /
OpenAI engines are modelled by an explicit `resp : Except PyErr PyVal`
parameter: `.ok v` means the engine returned `v`, `.error e` means it
raised `e`.  A function whose output is independent of `resp` provably
never invokes the engine.
-/

namespace VoiceNotes

/-- A loosely-typed Python value: `None`, booleans, numbers, strings,
lists, dicts (string-keyed association lists, first key wins as in a
Python dict with distinct keys) and attribute-bearing objects. -/
inductive PyVal where
  | none
  | bool (b : Bool)
  | int (n : Int)
  | str (s : String)
  | list (xs : List PyVal)
  | dict (kvs : List (String × PyVal))
  | obj (attrs : List (String × PyVal))
deriving Repr

/-- Python exception classes relevant to the pipeline, with their message. -/
inductive PyErr where
  | fileNotFound (msg : String)
  | valueError (msg : String)
  | runtimeError (msg : String)
  | attributeError (msg : String)
  | typeError (msg : String)
  | rateLimitError (msg : String)
  | apiError (msg : String)
  | otherError (msg : String)
deriving Repr, DecidableEq

/-- The message carried by an exception (`str(e)`). -/
def PyErr.msg : PyErr → String
  | .fileNotFound m => m
  | .valueError m => m
  | .runtimeError m => m
  | .attributeError m => m
  | .typeError m => m
  | .rateLimitError m => m
  | .apiError m => m
  | .otherError m => m

/-- Python truthiness (`bool(v)`). -/
def truthy : PyVal → Bool
  | .none => false
  | .bool b => b
  | .int n => n != 0
  | .str s => s != ""
  | .list xs => !xs.isEmpty
  | .dict kvs => !kvs.isEmpty
  | .obj _ => true

/-- `isinstance(v, dict)`. -/
def isDict : PyVal → Bool
  | .dict _ => true
  | _ => false

/-- `isinstance(v, list)`. -/
def isList : PyVal → Bool
  | .list _ => true
  | _ => false

/-- `isinstance(v, str)`. -/
def isStr : PyVal → Bool
  | .str _ => true
  | _ => false

/-- Association-list lookup, first binding wins. -/
def lookupKey (kvs : List (String × PyVal)) (k : String) : Option PyVal :=
  match kvs.find? (fun p => p.1 == k) with
  | some p => some p.2
  | Option.none => Option.none

/-- `d.get(k, default)` on a dict body. -/
def dget (kvs : List (String × PyVal)) (k : String) (default : PyVal) : PyVal :=
  match lookupKey kvs k with
  | some v => v
  | Option.none => default

/-- `hasattr(v, k)`: only objects carry the attribute names the code
probes for (`segments`, `text`, `language`, `words`, `choices`,
`message`, `content`); built-in values do not. -/
def hasattrB : PyVal → String → Bool
  | .obj attrs, k => (lookupKey attrs k).isSome
  | _, _ => false

/-- `getattr(v, k, default)`. -/
def getattrD (v : PyVal) (k : String) (default : PyVal) : PyVal :=
  match v with
  | .obj attrs =>
    match lookupKey attrs k with
    | some w => w
    | Option.none => default
  | _ => default

/-- `list(v)`: `some` of the element list when `v` is iterable
(strings iterate as one-character strings, dicts iterate over their
keys), `none` when `list(v)` would raise `TypeError`. -/
def pyIter : PyVal → Option (List PyVal)
  | .str s => some (s.data.map (fun c => .str (String.mk [c])))
  | .list xs => some xs
  | .dict kvs => some (kvs.map (fun p => PyVal.str p.1))
  | _ => Option.none

/-- Python whitespace test used by `str.strip()`. -/
def pyIsSpace (c : Char) : Bool := c.isWhitespace

/-- `s.strip()`: drop leading and trailing whitespace. -/
def pyStrip (s : String) : String :=
  String.mk (((s.data.dropWhile pyIsSpace).reverse.dropWhile pyIsSpace).reverse)

/-- `s.lower()` (ASCII, which covers the keywords the code scans for). -/
def pyLower (s : String) : String :=
  String.mk (s.data.map Char.toLower)

/-- `str(v)` as used on scalar values (speaker labels, text fields);
containers and objects get a fixed placeholder rendering, which no
claim depends on. -/
def pyStr : PyVal → String
  | .none => "None"
  | .bool b => if b then "True" else "False"
  | .int n => toString n
  | .str s => s
  | .list _ => "<list>"
  | .dict _ => "<dict>"
  | .obj _ => "<object>"

/-- `pat in hay` on character lists. -/
def leadsWith : List Char → List Char → Bool
  | [], _ => true
  | _ :: _, [] => false
  | p :: ps, h :: hs => p == h && leadsWith ps hs

/-- Substring occurrence on character lists. -/
def hasSub (pat : List Char) : List Char → Bool
  | [] => leadsWith pat []
  | c :: hs => leadsWith pat (c :: hs) || hasSub pat hs

/-- `pat in hay` for strings. -/
def containsSub (hay pat : String) : Bool := hasSub pat.data hay.data

/-! ## `voice_notes/transcribe.py` -/

/-- The canonical `WhisperResult` dataclass: full text, canonical
segment dicts, detected language (kept as a raw value, as the code
stores whatever the engine reported). -/
structure WhisperResult where
  text : String
  segments : List PyVal
  language : PyVal
deriving Repr

/-- Raw-segment extraction of `transcribe_file` (lines 101-118): dict
results use `result.get("segments", [])` guarded by an `isinstance`
list check; attribute-bearing results fall back to `list(value)` with
`TypeError`/`ValueError` mapped to `[]`. -/
def extractSegmentsRaw (result : PyVal) : List PyVal :=
  match result with
  | .dict kvs =>
    match dget kvs "segments" (.list []) with
    | .list xs => xs
    | _ => []
  | _ =>
    if hasattrB result "segments" then
      match getattrD result "segments" .none with
      | .list xs => xs
      | .none => []
      | v =>
        match pyIter v with
        | some xs => xs
        | Option.none => []
    else []

/-- Per-segment normalization of `transcribe_file` (lines 124-139):
dict segments are kept as-is, other values are turned into a dict via
best-effort attribute reads, with `words` carried over only when
present and truthy. -/
def canonKvs (seg : PyVal) : List (String × PyVal) :=
  match seg with
  | .dict kvs => kvs
  | _ =>
    let base : List (String × PyVal) :=
      [("text", getattrD seg "text" (.str "")),
       ("start", getattrD seg "start" (.int 0)),
       ("end", getattrD seg "end" (.int 0))]
    if hasattrB seg "words" then
      let words := getattrD seg "words" (.list [])
      if truthy words then base ++ [("words", words)] else base
    else base

/-- The text-part accumulation of the segment loop (lines 141-146):
`seg_dict.get("text", "")` must be a truthy string whose trim is
non-empty to contribute to the fallback transcript. -/
def codePartsStep (kvs : List (String × PyVal)) (tail : List String) :
    List String :=
  match dget kvs "text" (.str "") with
  | .str s =>
    if s != "" then
      (if pyStrip s != "" then pyStrip s :: tail else tail)
    else tail
  | _ => tail

/-- The segment loop of `transcribe_file` (lines 121-146): builds the
canonical segment list and, in the same pass, the list of trimmed
non-empty segment texts used for the fallback transcript. -/
def segLoop : List PyVal → List PyVal × List String
  | [] => ([], [])
  | seg :: rest =>
    let kvs := canonKvs seg
    let tail := segLoop rest
    (.dict kvs :: tail.1, codePartsStep kvs tail.2)

/-- Direct whole-text extraction of `transcribe_file` (lines 149-157):
on a dict result `result.get("text", "").strip()` — which raises
`AttributeError` when the stored value is not a string — and on an
attribute-bearing result `str(value).strip()` guarded by truthiness. -/
def extractDirectText (result : PyVal) : Except PyErr String :=
  match result with
  | .dict kvs =>
    match dget kvs "text" (.str "") with
    | .str s => .ok (pyStrip s)
    | _ => .error (.attributeError "object has no attribute strip")
  | _ =>
    if hasattrB result "text" then
      let tv := getattrD result "text" .none
      if truthy tv then .ok (pyStrip (pyStr tv)) else .ok ""
    else .ok ""

/-- Language extraction of `transcribe_file` (lines 166-172):
engine-reported language if truthy, else the caller-requested one. -/
def extractLanguage (result : PyVal) (language : Option String) : PyVal :=
  let requested : PyVal :=
    match language with
    | some s => .str s
    | Option.none => .none
  match result with
  | .dict kvs =>
    let lv := dget kvs "language" .none
    if truthy lv then lv else requested
  | _ =>
    if hasattrB result "language" then
      let lv := getattrD result "language" .none
      if truthy lv then lv else requested
    else requested

/-- `transcribe_file` (transcribe.py lines 34-178).  `audioExists`
models `audio_path.exists()`; `rawResult` is the value returned by
`model.transcribe(...)`. -/
def transcribe_file (audioExists : Bool) (model_name : String)
    (device : String) (language : Option String) (rawResult : PyVal) :
    Except PyErr WhisperResult :=
  if !audioExists then
    .error (.fileNotFound "Audio file not found")
  else if model_name == "" then
    .error (.valueError "model_name cannot be empty")
  else if device != "cpu" && device != "cuda" then
    .error (.valueError ("Invalid device: " ++ device ++ ". Must be cpu or cuda"))
  else
    let loop := segLoop (extractSegmentsRaw rawResult)
    match extractDirectText rawResult with
    | .error e => .error e
    | .ok direct =>
      let text :=
        if direct == "" && !loop.2.isEmpty then
          pyStrip (String.intercalate " " loop.2)
        else direct
      .ok { text := text
            segments := loop.1
            language := extractLanguage rawResult language }


/-! ## `voice_notes/whisperx_tools.py` -/

/-- The audio-path argument: `Option.none` models passing `None`
(`not audio_path` is true), `some e` models a path whose
`exists()` is `e`. -/
def audioOk : Option Bool → Bool
  | some true => true
  | _ => false

/-- Engine-result validation shared by `align_transcript` (lines 79-82)
and `assign_speakers` (lines 212-215), together with the surrounding
`except` clause of each: the inner `RuntimeError` is itself re-wrapped
by the handler, and `list(mapping.get("segments", []))` raising
`TypeError` is wrapped the same way.  `stage` is the wrapping message
("Alignment failed: " / "Speaker assignment failed: "), `invalid` the
inner message. -/
def validateEngineResult (stage invalid : String) (v : PyVal) :
    Except PyErr (List PyVal) :=
  if !truthy v || !isDict v then
    .error (.runtimeError (stage ++ invalid))
  else
    match v with
    | .dict kvs =>
      match pyIter (dget kvs "segments" (.list [])) with
      | some xs => .ok xs
      | Option.none => .error (.runtimeError (stage ++ "object is not iterable"))
    | _ => .error (.runtimeError (stage ++ invalid))

/-- `align_transcript` (whisperx_tools.py lines 30-86).  `resp` models
the body of the `try` block: `.ok v` means `whisperx.align(...)`
returned `v`, `.error e` means loading the model, loading the audio or
aligning raised `e`. -/
def align_transcript (audio : Option Bool) (segments : List PyVal)
    (language : Option String) (device : String)
    (resp : Except PyErr PyVal) : Except PyErr (List PyVal) :=
  if !audioOk audio then
    .error (.fileNotFound "Audio file not found")
  else
    match language with
    | Option.none =>
      .error (.valueError "Language is required for alignment (pass detected language).")
    | some lang =>
      if lang == "" || pyStrip lang == "" then
        .error (.valueError "Language is required for alignment (pass detected language).")
      else if device != "cpu" && device != "cuda" then
        .error (.valueError ("Invalid device: " ++ device ++ ". Must be cpu or cuda"))
      else if segments.isEmpty then
        .ok []
      else
        match resp with
        | .error e =>
          match e with
          | .fileNotFound m => .error (.fileNotFound m)
          | .valueError m => .error (.valueError m)
          | _ => .error (.runtimeError ("Alignment failed: " ++ e.msg))
        | .ok aligned =>
          validateEngineResult "Alignment failed: "
            "Alignment returned invalid result" aligned

/-- `min_speakers is not None and min_speakers < 1` (and the same test
for `max_speakers`). -/
def suppliedBelowOne : Option Int → Bool
  | some m => decide (m < 1)
  | Option.none => false

/-- `min_speakers is not None and max_speakers is not None and
min_speakers > max_speakers`. -/
def boundsInverted : Option Int → Option Int → Bool
  | some m, some M => decide (M < m)
  | _, _ => false

/-- `diarize_audio` (whisperx_tools.py lines 89-181).  `resp` models
the `try` block: constructing the diarization pipeline and running it. -/
def diarize_audio (audio : Option Bool) (device : String)
    (hf_token : String) (min_speakers max_speakers : Option Int)
    (resp : Except PyErr PyVal) : Except PyErr PyVal :=
  if !audioOk audio then
    .error (.fileNotFound "Audio file not found")
  else if hf_token == "" || pyStrip hf_token == "" then
    .error (.valueError "HUGGINGFACE_TOKEN is required for diarization.")
  else if device != "cpu" && device != "cuda" then
    .error (.valueError ("Invalid device: " ++ device ++ ". Must be cpu or cuda"))
  else if suppliedBelowOne min_speakers then
    .error (.valueError "min_speakers must be at least 1")
  else if suppliedBelowOne max_speakers then
    .error (.valueError "max_speakers must be at least 1")
  else if boundsInverted min_speakers max_speakers then
    .error (.valueError "min_speakers cannot be greater than max_speakers")
  else
    match resp with
    | .ok v => .ok v
    | .error (.attributeError _) =>
      .error (.runtimeError "Failed to load diarization model. This is usually caused by: invalid or missing HUGGINGFACE_TOKEN, not accepting the model terms of use, or a token without access to the gated model.")
    | .error (.fileNotFound m) => .error (.fileNotFound m)
    | .error (.valueError m) => .error (.valueError m)
    | .error e =>
      if (["auth", "token", "unauthorized", "forbidden", "gated"].any
            (fun kw => containsSub (pyLower e.msg) kw)) then
        .error (.runtimeError ("Diarization authentication failed: " ++ e.msg))
      else
        .error (.runtimeError ("Diarization failed: " ++ e.msg))

/-- `assign_speakers` (whisperx_tools.py lines 184-219).  The segment
argument is an arbitrary value, as the Python function may receive a
non-list; `resp` models `whisperx.assign_word_speakers(...)`. -/
def assign_speakers (aligned_segments : PyVal)
    (resp : Except PyErr PyVal) : Except PyErr (List PyVal) :=
  if !truthy aligned_segments then
    .ok []
  else if !isList aligned_segments then
    .error (.valueError "aligned_segments must be a list")
  else
    match resp with
    | .error e =>
      match e with
      | .valueError m => .error (.valueError m)
      | _ => .error (.runtimeError ("Speaker assignment failed: " ++ e.msg))
    | .ok assigned =>
      validateEngineResult "Speaker assignment failed: "
        "Speaker assignment returned invalid result" assigned


/-! ## `voice_notes/formatting.py` -/

/-- The body of the per-segment loop of `format_speaker_transcript`
(lines 30-43): non-dict entries are skipped; the speaker label
defaults to `SPEAKER_UNKNOWN` and is `str()`-coerced; falsy or
non-string text is skipped, as is text that trims to the empty
string. -/
def lineOf (seg : PyVal) : Option String :=
  match seg with
  | .dict kvs =>
    let speaker := pyStr (dget kvs "speaker" (.str "SPEAKER_UNKNOWN"))
    match dget kvs "text" (.str "") with
    | .str s =>
      if s == "" then Option.none
      else if pyStrip s == "" then Option.none
      else some (speaker ++ ": " ++ pyStrip s)
    | _ => Option.none
  | _ => Option.none

/-- The per-segment loop of `format_speaker_transcript` (lines 29-43). -/
def speakerLines (segs : List PyVal) : List String :=
  segs.filterMap lineOf

/-- `format_speaker_transcript` (formatting.py lines 6-45). -/
def format_speaker_transcript (segments : PyVal) : Except PyErr String :=
  match segments with
  | .none => .error (.valueError "segments cannot be None")
  | .list xs => .ok (pyStrip (String.intercalate "\n" (speakerLines xs)))
  | _ => .error (.valueError "segments must be a list")


/-! ## `voice_notes/summarize.py` -/

/-- The `Summary` dataclass: `markdown` and `text` carry the same value
(kept as raw values, as `content` is stored without coercion). -/
structure Summary where
  markdown : PyVal
  text : PyVal
deriving Repr

/-- Response validation of `summarize_transcript` (lines 108-127),
performed inside the `try` block; a `RuntimeError` raised here survives
the outer `except Exception` clause unchanged, and attribute accesses
without a default (`response.choices[0].message.content`) raise errors
that the clause wraps. -/
def validateSummaryResponse (response : PyVal) : Except PyErr Summary :=
  if !truthy response then
    .error (.runtimeError "Invalid API response: missing choices")
  else if !hasattrB response "choices" then
    .error (.runtimeError "Invalid API response: missing choices")
  else
    match getattrD response "choices" .none with
    | .none => .error (.runtimeError "Invalid API response: missing choices")
    | .list choices =>
      match choices with
      | [] => .error (.runtimeError "Invalid API response: empty choices list")
      | first :: _ =>
        if !truthy first then
          .error (.runtimeError "Invalid API response: missing message")
        else if !hasattrB first "message" then
          -- `first_choice.message` raises AttributeError, wrapped below
          .error (.runtimeError "Failed to generate summary: object has no attribute message")
        else
          let message := getattrD first "message" .none
          if !truthy message then
            .error (.runtimeError "Invalid API response: missing message")
          else if !hasattrB message "content" then
            .error (.runtimeError "Failed to generate summary: object has no attribute content")
          else
            let content := getattrD message "content" .none
            let summary_text := if truthy content then content else .str ""
            .ok { markdown := summary_text, text := summary_text }
    | _ =>
      -- `len()` / indexing on a non-list choices value raises; the
      -- `except Exception` clause wraps it into a RuntimeError
      .error (.runtimeError "Failed to generate summary: invalid choices value")

/-- `summarize_transcript` (summarize.py lines 23-143).  `resp` models
the chat-completion call: `.ok v` is the service response, `.error e`
an exception raised by the client. -/
def summarize_transcript (transcript : String) (model : String)
    (api_key : Option String) (resp : Except PyErr PyVal) :
    Except PyErr Summary :=
  if (match api_key with | some k => k == "" | Option.none => true) then
    .error (.valueError "OpenAI API key is required for summarization. Set OPENAI_API_KEY environment variable or pass api_key parameter.")
  else if transcript == "" || pyStrip transcript == "" then
    .error (.valueError "transcript cannot be empty")
  else if model == "" || pyStrip model == "" then
    .error (.valueError "model cannot be empty")
  else
    match resp with
    | .error (.rateLimitError m) =>
      .error (.runtimeError ("OpenAI API quota exceeded. Please check your billing and usage. Error: " ++ m))
    | .error (.apiError m) =>
      .error (.runtimeError ("OpenAI API error: " ++ m ++ ". Please check your API key and account status."))
    | .error (.valueError m) => .error (.valueError m)
    | .error (.runtimeError m) => .error (.runtimeError m)
    | .error e => .error (.runtimeError ("Failed to generate summary: " ++ e.msg))
    | .ok response =>
      match validateSummaryResponse response with
      | .ok s => .ok s
      | .error (.valueError m) => .error (.valueError m)
      | .error (.runtimeError m) => .error (.runtimeError m)
      | .error e => .error (.runtimeError ("Failed to generate summary: " ++ e.msg))

/-! ## `voice_notes/cli.py` -/

/-- `_process_summary` (cli.py lines 204-233): reads and trims the
`OPENAI_API_KEY` environment variable, raises a `ValueError` when it is
empty, then calls `summarize_transcript` and writes `summary.md`. -/
def process_summary (transcript : String) (model : String)
    (apiKeyEnv : String) (resp : Except PyErr PyVal) :
    Except PyErr Summary :=
  let api_key := pyStrip apiKeyEnv
  if api_key == "" then
    .error (.valueError "OPENAI_API_KEY is required for summarization. Set it as an environment variable.")
  else
    summarize_transcript transcript model (some api_key) resp

/-- Outcome of the summarization stage of `main`. -/
inductive SummaryStage where
  | wrote (s : Summary)
  | warned (e : PyErr)
  | skipped
deriving Repr

/-- The summarization step of `main` (cli.py lines 297-311): when
`--summarize` is passed, `_process_summary` is called inside
`try ... except (ValueError, RuntimeError)`, and a caught error is
downgraded to a printed warning; any other exception propagates.
Without `--summarize` the stage prints a skip message. -/
def main_summary_step (summarize : Bool) (apiKeyEnv : String)
    (model : String) (transcript : String)
    (resp : Except PyErr PyVal) : Except PyErr SummaryStage :=
  if summarize then
    match process_summary transcript model apiKeyEnv resp with
    | .ok s => .ok (.wrote s)
    | .error (.valueError m) => .ok (.warned (.valueError m))
    | .error (.runtimeError m) => .ok (.warned (.runtimeError m))
    | .error e => .error e
  else
    .ok .skipped

/-- `_process_alignment` (cli.py lines 118-154): requires a truthy
language value, then delegates to align_transcript and writes the
aligned segments (file writing omitted, out of scope per the spec).  A
truthy non-string language value reaches language.strip() inside
align_transcript, which raises an attribute error. -/
def process_alignment (audioExists : Bool) (segments : List PyVal)
    (language : PyVal) (device : String) (resp : Except PyErr PyVal) :
    Except PyErr (List PyVal) :=
  if !truthy language then
    .error (.valueError "Alignment needs a language. Pass --language en or let Whisper detect it.")
  else
    match language with
    | .str s => align_transcript (some audioExists) segments (some s) device resp
    | _ => .error (.attributeError "object has no attribute strip")

/-- `_process_diarization` (cli.py lines 157-201): reads and trims the
HUGGINGFACE_TOKEN environment variable, raises a validation error when
it is empty, then runs diarize_audio, assign_speakers and
format_speaker_transcript in sequence (file writing omitted).  No
exception is caught here: every stage error propagates to main. -/
def process_diarization (audioExists : Bool) (segments : List PyVal)
    (device : String) (hfTokenEnv : String) (minS maxS : Option Int)
    (diarizeResp assignResp : Except PyErr PyVal) :
    Except PyErr (List PyVal) :=
  let hf_token := pyStrip hfTokenEnv
  if hf_token == "" then
    .error (.valueError "HUGGINGFACE_TOKEN is required for diarization. Set it as an environment variable.")
  else
    match diarize_audio (some audioExists) device hf_token minS maxS diarizeResp with
    | .error e => .error e
    | .ok _ =>
      match assign_speakers (.list segments) assignResp with
      | .error e => .error e
      | .ok diarized =>
        match format_speaker_transcript (.list diarized) with
        | .error e => .error e
        | .ok _ => .ok diarized

/-- The effective alignment language computed by `main` (cli.py line
278): `args.language or detected_language`. -/
def effectiveLang (argLang : Option String) (detected : PyVal) : PyVal :=
  match argLang with
  | some s => if s != "" then .str s else detected
  | Option.none => detected

/-- `main` (cli.py lines 236-311), stage structure: the audio
existence check, then the transcription stage, then the optional
alignment, diarization and summarization stages in fixed order,
threading the evolving segment list.  File writing and console output
are omitted (out of scope per the spec); each external engine call is
modelled by its response parameter.  The only exception handler in
main is the `except (ValueError, RuntimeError)` around the
summarization stage, embedded in main_summary_step; errors of every
other stage leave main unhandled. -/
def main_run (audioExists : Bool) (model device : String)
    (language : Option String) (rawTranscription : PyVal)
    (alignFlag : Bool) (alignResp : Except PyErr PyVal)
    (diarizeFlag : Bool) (hfTokenEnv : String) (minS maxS : Option Int)
    (diarizeResp assignResp : Except PyErr PyVal)
    (summarizeFlag : Bool) (apiKeyEnv summaryModel : String)
    (summaryResp : Except PyErr PyVal) : Except PyErr SummaryStage :=
  if !audioExists then
    .error (.fileNotFound "Audio file not found")
  else
    match transcribe_file audioExists model device language rawTranscription with
    | .error e => .error e
    | .ok wr =>
      match (if alignFlag then
               process_alignment audioExists wr.segments
                 (effectiveLang language wr.language) device alignResp
             else .ok wr.segments) with
      | .error e => .error e
      | .ok segs =>
        match (if diarizeFlag then
                 process_diarization audioExists segs device hfTokenEnv
                   minS maxS diarizeResp assignResp
               else .ok segs) with
        | .error e => .error e
        | .ok _ =>
          main_summary_step summarizeFlag apiKeyEnv summaryModel wr.text
            summaryResp

/-! ## Claim-side predicates -/

/-- Written from claim C7: a segment for which a transcript line is
emitted is a mapping whose text value is a string that is non-empty
after trimming. -/
def emitsLine (seg : PyVal) : Bool :=
  match seg with
  | .dict kvs =>
    match dget kvs "text" (.str "") with
    | .str s => pyStrip s != ""
    | _ => false
  | _ => false

/-- Written from claim C5: the trimmed text of a canonical segment,
when it is a non-empty string after trimming. -/
def specTextOf (seg : PyVal) : Option String :=
  match seg with
  | .dict kvs =>
    match dget kvs "text" (.str "") with
    | .str s => if pyStrip s == "" then Option.none else some (pyStrip s)
    | _ => Option.none
  | _ => Option.none

/-- Written from claim C5: the trimmed non-empty string texts of the
canonical segments, in sequence order, used by the fallback transcript
concatenation. -/
def specSegmentTexts (segs : List PyVal) : List String :=
  segs.filterMap specTextOf

/-! ## Claim-side predicates and helper lemmas -/

/-- Trimming the empty string yields the empty string. -/
theorem pyStrip_empty : pyStrip "" = "" := rfl

/-- A string with a non-empty trim is itself non-empty. -/
theorem ne_empty_of_pyStrip_ne_empty (s : String) (h : pyStrip s ≠ "") :
    s ≠ "" := by
  intro hs
  rw [hs] at h
  exact h rfl

/-- When the segment list is non-empty and all leading validation of
align_transcript passes, the result is exactly the engine-response
validation. -/
theorem align_transcript_validates (seg : PyVal) (segs : List PyVal)
    (v : PyVal) :
    align_transcript (some true) (seg :: segs) (some "en") "cpu" (.ok v) =
    validateEngineResult "Alignment failed: "
      "Alignment returned invalid result" v := rfl

/-- An engine response that is falsy or not a mapping fails validation
with a runtime error. -/
theorem validateEngineResult_invalid (stage invalid : String) (v : PyVal)
    (h : truthy v = false ∨ isDict v = false) :
    validateEngineResult stage invalid v =
    .error (.runtimeError (stage ++ invalid)) := by
  unfold validateEngineResult
  rcases h with h | h
  · rw [h]
    simp
  · rw [h]
    simp

/-- A non-empty mapping that lacks the segments key passes validation
and yields the empty list. -/
theorem validateEngineResult_missing_key (stage invalid : String)
    (kvs : List (String × PyVal)) (hne : kvs ≠ [])
    (hk : lookupKey kvs "segments" = Option.none) :
    validateEngineResult stage invalid (.dict kvs) = .ok [] := by
  unfold validateEngineResult
  have ht : truthy (.dict kvs) = true := by
    simp [truthy, List.isEmpty_iff, hne]
  simp [ht, isDict, dget, hk, pyIter]

/-! ## Claims about whisperx_tools -/

/-- C2 counterexample: the claim says a mapping lacking the segments
key raises a runtime error, but align_transcript and assign_speakers
both return normally (with the empty list) on the non-empty mapping
response given here. -/
theorem engine_result_missing_segments_key_returns_normally :
    align_transcript (some true) [.dict [("text", .str "hi")]] (some "en")
      "cpu" (.ok (.dict [("foo", .int 1)])) = .ok [] ∧
    assign_speakers (.list [.dict [("text", .str "hi")]])
      (.ok (.dict [("foo", .int 1)])) = .ok [] :=
  ⟨rfl, rfl⟩

/-- C2 (amended): when the engine returns a value, align_transcript
and assign_speakers raise a runtime error when that response is falsy
or not a mapping, while a non-empty mapping lacking the segments key
makes them return the empty segment list normally; when the engine
call itself raises instead of returning, align_transcript re-raises
validation and not-found errors unchanged, assign_speakers re-raises
validation errors unchanged, and every other engine exception is
wrapped into a stage-specific runtime error. -/
theorem engine_result_validation (v seg : PyVal)
    (kvs : List (String × PyVal)) (m : String) (err : PyErr) :
    ((truthy v = false ∨ isDict v = false) →
      align_transcript (some true) [seg] (some "en") "cpu" (.ok v) =
        .error (.runtimeError "Alignment failed: Alignment returned invalid result") ∧
      assign_speakers (.list [seg]) (.ok v) =
        .error (.runtimeError "Speaker assignment failed: Speaker assignment returned invalid result"))
    ∧ (kvs ≠ [] → lookupKey kvs "segments" = Option.none →
      align_transcript (some true) [seg] (some "en") "cpu" (.ok (.dict kvs)) = .ok [] ∧
      assign_speakers (.list [seg]) (.ok (.dict kvs)) = .ok [])
    ∧ (align_transcript (some true) [seg] (some "en") "cpu"
         (.error (.valueError m)) = .error (.valueError m) ∧
       align_transcript (some true) [seg] (some "en") "cpu"
         (.error (.fileNotFound m)) = .error (.fileNotFound m) ∧
       assign_speakers (.list [seg]) (.error (.valueError m)) =
         .error (.valueError m))
    ∧ ((∀ s, err ≠ .valueError s) → (∀ s, err ≠ .fileNotFound s) →
      align_transcript (some true) [seg] (some "en") "cpu" (.error err) =
        .error (.runtimeError ("Alignment failed: " ++ err.msg)))
    ∧ ((∀ s, err ≠ .valueError s) →
      assign_speakers (.list [seg]) (.error err) =
        .error (.runtimeError ("Speaker assignment failed: " ++ err.msg))) := by
  refine ⟨fun h => ?_, fun hne hk => ?_, ⟨rfl, rfl, rfl⟩,
    fun h1 h2 => ?_, fun h1 => ?_⟩
  · constructor
    · rw [align_transcript_validates]
      exact validateEngineResult_invalid _ _ v h
    · show validateEngineResult "Speaker assignment failed: "
        "Speaker assignment returned invalid result" v = _
      exact validateEngineResult_invalid _ _ v h
  · constructor
    · rw [align_transcript_validates]
      exact validateEngineResult_missing_key _ _ kvs hne hk
    · show validateEngineResult "Speaker assignment failed: "
        "Speaker assignment returned invalid result" (.dict kvs) = _
      exact validateEngineResult_missing_key _ _ kvs hne hk
  · cases err with
    | valueError s => exact absurd rfl (h1 s)
    | fileNotFound s => exact absurd rfl (h2 s)
    | runtimeError s => rfl
    | attributeError s => rfl
    | typeError s => rfl
    | rateLimitError s => rfl
    | apiError s => rfl
    | otherError s => rfl
  · cases err with
    | valueError s => exact absurd rfl (h1 s)
    | fileNotFound s => rfl
    | runtimeError s => rfl
    | attributeError s => rfl
    | typeError s => rfl
    | rateLimitError s => rfl
    | apiError s => rfl
    | otherError s => rfl

/-- C2 witness: the amended statement instantiated at a falsy
response, at a non-empty mapping without a segments key, at an
engine-raised validation error, and at an engine-raised generic
exception. -/
theorem engine_result_validation_witness :
    (align_transcript (some true) [.dict []] (some "en") "cpu" (.ok .none) =
      .error (.runtimeError "Alignment failed: Alignment returned invalid result")) ∧
    (assign_speakers (.list [.dict []]) (.ok (.dict [("foo", .int 1)])) = .ok []) ∧
    (align_transcript (some true) [.dict []] (some "en") "cpu"
       (.error (.valueError "bad input")) = .error (.valueError "bad input")) ∧
    (align_transcript (some true) [.dict []] (some "en") "cpu"
       (.error (.otherError "boom")) =
     .error (.runtimeError ("Alignment failed: " ++ "boom"))) ∧
    (assign_speakers (.list [.dict []]) (.error (.otherError "boom")) =
     .error (.runtimeError ("Speaker assignment failed: " ++ "boom"))) :=
  ⟨((engine_result_validation .none (.dict []) [("foo", .int 1)] "bad input"
      (.otherError "boom")).1 (Or.inl rfl)).1,
   ((engine_result_validation .none (.dict []) [("foo", .int 1)] "bad input"
      (.otherError "boom")).2.1 (by simp) rfl).2,
   (engine_result_validation .none (.dict []) [("foo", .int 1)] "bad input"
      (.otherError "boom")).2.2.1.1,
   (engine_result_validation .none (.dict []) [("foo", .int 1)] "bad input"
      (.otherError "boom")).2.2.2.1
     (fun s h => PyErr.noConfusion h) (fun s h => PyErr.noConfusion h),
   (engine_result_validation .none (.dict []) [("foo", .int 1)] "bad input"
      (.otherError "boom")).2.2.2.2
     (fun s h => PyErr.noConfusion h)⟩

/-- C6 counterexample: the claim says every non-sequence segment input
is rejected with a validation error, but the falsy non-sequence input
None returns the empty list normally. -/
theorem assign_speakers_falsy_input_not_rejected :
    assign_speakers .none (.ok (.dict [("segments", .list [])])) = .ok [] := rfl

/-- C6 (amended): a truthy value that is not a list is rejected by
assign_speakers with a validation error before the engine is invoked;
falsy non-sequence inputs instead fall into the empty-input
short-circuit and return the empty list. -/
theorem assign_speakers_rejects_truthy_non_list (v : PyVal)
    (resp : Except PyErr PyVal) (ht : truthy v = true)
    (hl : isList v = false) :
    assign_speakers v resp = .error (.valueError "aligned_segments must be a list") := by
  unfold assign_speakers
  rw [ht, hl]
  simp

/-- C6 witness: a non-empty dict (truthy, not a list) is rejected. -/
theorem assign_speakers_rejects_truthy_non_list_witness :
    assign_speakers (.dict [("a", .int 1)]) (.ok .none) =
    .error (.valueError "aligned_segments must be a list") :=
  assign_speakers_rejects_truthy_non_list (.dict [("a", .int 1)])
    (.ok .none) rfl rfl

/-- C8: with the audio, token and device preconditions satisfied,
diarize_audio validates the speaker-count bounds before any engine
invocation (the result does not depend on the engine response): a
supplied minimum below one, a supplied maximum below one, and a
minimum exceeding the maximum each raise their specific validation
error. -/
theorem diarize_audio_validates_speaker_bounds (m M : Int)
    (mo : Option Int) (resp : Except PyErr PyVal) :
    (m < 1 →
      diarize_audio (some true) "cpu" "tok" (some m) mo resp =
        .error (.valueError "min_speakers must be at least 1"))
    ∧ (1 ≤ m → M < 1 →
      diarize_audio (some true) "cpu" "tok" (some m) (some M) resp =
        .error (.valueError "max_speakers must be at least 1"))
    ∧ (1 ≤ m → 1 ≤ M → M < m →
      diarize_audio (some true) "cpu" "tok" (some m) (some M) resp =
        .error (.valueError "min_speakers cannot be greater than max_speakers")) := by
  refine ⟨fun h1 => ?_, fun h1 h2 => ?_, fun h1 h2 h3 => ?_⟩
  · unfold diarize_audio
    simp [audioOk, pyStrip, pyIsSpace, suppliedBelowOne, h1]
  · unfold diarize_audio
    simp [audioOk, pyStrip, pyIsSpace, suppliedBelowOne, h2,
      Int.not_lt.mpr h1]
  · unfold diarize_audio
    simp [audioOk, pyStrip, pyIsSpace, suppliedBelowOne, boundsInverted, h3,
      Int.not_lt.mpr h1, Int.not_lt.mpr h2]

/-- C8 witness: scenario C of the spec, min_speakers 5 and
max_speakers 2 fail with the bounds validation error, and a minimum of
0 fails with the at-least-one error, independently of the engine
response supplied here. -/
theorem diarize_audio_validates_speaker_bounds_witness :
    diarize_audio (some true) "cpu" "tok" (some 5) (some 2) (.ok (.obj [])) =
      .error (.valueError "min_speakers cannot be greater than max_speakers") ∧
    diarize_audio (some true) "cpu" "tok" (some 0) Option.none (.ok (.obj [])) =
      .error (.valueError "min_speakers must be at least 1") :=
  ⟨(diarize_audio_validates_speaker_bounds 5 2 Option.none (.ok (.obj []))).2.2
      (by decide) (by decide) (by decide),
   (diarize_audio_validates_speaker_bounds 0 0 Option.none (.ok (.obj []))).1
      (by decide)⟩

/-- C9: with the preconditions satisfied, an empty segment sequence
passed to align_transcript or to assign_speakers returns the empty
sequence, and the result does not depend on the engine response, so
the engine is never invoked. -/
theorem empty_segments_short_circuit (audio : Option Bool)
    (lang device : String) (resp resp2 : Except PyErr PyVal)
    (ha : audioOk audio = true) (hl : pyStrip lang ≠ "")
    (hd : device = "cpu" ∨ device = "cuda") :
    align_transcript audio [] (some lang) device resp = .ok [] ∧
    assign_speakers (.list []) resp2 = .ok [] := by
  constructor
  · unfold align_transcript
    rw [ha]
    have hl0 : lang ≠ "" := ne_empty_of_pyStrip_ne_empty lang hl
    have hd0 : (device != "cpu" && device != "cuda") = false := by
      rcases hd with h | h <;> simp [h]
    simp [hl0, hl, hd0]
  · rfl

/-- C9 witness: empty segments with a valid audio path, language and
device return the empty list for both adapters. -/
theorem empty_segments_short_circuit_witness :
    align_transcript (some true) [] (some "en") "cpu" (.ok .none) = .ok [] ∧
    assign_speakers (.list []) (.ok .none) = .ok [] :=
  empty_segments_short_circuit (some true) "en" "cpu" (.ok .none) (.ok .none)
    rfl (by decide) (Or.inl rfl)

/-- C10: align_transcript enforces its preconditions before the
empty-input short-circuit: even with an empty segment list, a missing
or non-existent audio path raises a not-found error, an absent, empty
or whitespace-only language raises a validation error, and an invalid
device raises a validation error; when every precondition passes the
empty list is returned.  None of these outcomes depends on the engine
response. -/
theorem align_transcript_preconditions_first (langO : Option String)
    (s device : String) (resp : Except PyErr PyVal) :
    (align_transcript Option.none [] langO device resp =
      .error (.fileNotFound "Audio file not found"))
    ∧ (align_transcript (some false) [] langO device resp =
      .error (.fileNotFound "Audio file not found"))
    ∧ (align_transcript (some true) [] Option.none device resp =
      .error (.valueError "Language is required for alignment (pass detected language)."))
    ∧ (pyStrip s = "" →
      align_transcript (some true) [] (some s) device resp =
        .error (.valueError "Language is required for alignment (pass detected language)."))
    ∧ (device ≠ "cpu" → device ≠ "cuda" →
      align_transcript (some true) [] (some "en") device resp =
        .error (.valueError ("Invalid device: " ++ device ++ ". Must be cpu or cuda")))
    ∧ (align_transcript (some true) [] (some "en") "cpu" resp = .ok []) := by
  refine ⟨rfl, rfl, rfl, fun hs => ?_, fun h1 h2 => ?_, rfl⟩
  · unfold align_transcript
    simp [audioOk, hs]
  · unfold align_transcript
    simp [audioOk, pyStrip, pyIsSpace, h1, h2]

/-- C10 witness: the precondition checks fire on concrete inputs even
though the segment list is empty. -/
theorem align_transcript_preconditions_first_witness :
    (align_transcript (some true) [] (some "   ") "cpu" (.ok .none) =
      .error (.valueError "Language is required for alignment (pass detected language).")) ∧
    (align_transcript (some true) [] (some "en") "gpu" (.ok .none) =
      .error (.valueError "Invalid device: gpu. Must be cpu or cuda")) :=
  ⟨(align_transcript_preconditions_first (some "   ") "   " "cpu" (.ok .none)).2.2.2.1
      (by decide),
   (align_transcript_preconditions_first (some "en") "" "gpu" (.ok .none)).2.2.2.2.1
      (by decide) (by decide)⟩

/-! ## Claims about formatting -/

/-- A segment outside the claim predicate emits no line. -/
theorem lineOf_eq_none_of_not_emits (seg : PyVal)
    (h : emitsLine seg = false) : lineOf seg = Option.none := by
  cases seg with
  | dict kvs =>
    simp only [emitsLine] at h
    cases hd : dget kvs "text" (.str "") with
    | str s =>
      rw [hd] at h
      have hps : pyStrip s = "" := by simpa using h
      simp [lineOf, hd, hps]
    | none => simp [lineOf, hd]
    | bool b => simp [lineOf, hd]
    | int n => simp [lineOf, hd]
    | list xs => simp [lineOf, hd]
    | dict kvs2 => simp [lineOf, hd]
    | obj attrs => simp [lineOf, hd]
  | none => rfl
  | bool b => rfl
  | int n => rfl
  | str s => rfl
  | list xs => rfl
  | obj attrs => rfl

/-- A segment inside the claim predicate emits exactly one line. -/
theorem lineOf_isSome_of_emits (seg : PyVal)
    (h : emitsLine seg = true) : (lineOf seg).isSome = true := by
  cases seg with
  | dict kvs =>
    simp only [emitsLine] at h
    cases hd : dget kvs "text" (.str "") with
    | str s =>
      rw [hd] at h
      have hps : pyStrip s ≠ "" := by simpa using h
      have hs0 : s ≠ "" := ne_empty_of_pyStrip_ne_empty s hps
      simp [lineOf, hd, hs0, hps]
    | none => rw [hd] at h; simp at h
    | bool b => rw [hd] at h; simp at h
    | int n => rw [hd] at h; simp at h
    | list xs => rw [hd] at h; simp at h
    | dict kvs2 => rw [hd] at h; simp at h
    | obj attrs => rw [hd] at h; simp at h
  | none => simp [emitsLine] at h
  | bool b => simp [emitsLine] at h
  | int n => simp [emitsLine] at h
  | str s => simp [emitsLine] at h
  | list xs => simp [emitsLine] at h
  | obj attrs => simp [emitsLine] at h

/-- Filtering out the segments that emit no line leaves the emitted
lines unchanged, and each surviving segment emits exactly one line. -/
theorem speakerLines_skips_invalid_text (segs : List PyVal) :
    speakerLines (segs.filter emitsLine) = speakerLines segs ∧
    (speakerLines segs).length = (segs.filter emitsLine).length := by
  induction segs with
  | nil => exact ⟨rfl, rfl⟩
  | cons seg rest ih =>
    by_cases he : emitsLine seg = true
    · obtain ⟨l, hl⟩ := Option.isSome_iff_exists.mp (lineOf_isSome_of_emits seg he)
      constructor
      · simp only [speakerLines, List.filter_cons, he, if_true,
          List.filterMap_cons, hl]
        exact congrArg (l :: ·) ih.1
      · simp only [speakerLines, List.filter_cons, he, if_true,
          List.filterMap_cons, hl, List.length_cons]
        exact congrArg (· + 1) ih.2
    · have he' : emitsLine seg = false := by simpa using he
      have hn := lineOf_eq_none_of_not_emits seg he'
      constructor
      · simp only [speakerLines, List.filter_cons, he', if_false,
          List.filterMap_cons, hn]
        exact ih.1
      · simp only [speakerLines, List.filter_cons, he', if_false,
          List.filterMap_cons, hn]
        exact ih.2

/-- The per-segment part accumulation of the loop agrees with the
claim-side trimmed-text extraction. -/
theorem codePartsStep_eq_spec (kvs : List (String × PyVal))
    (tail : List String) :
    codePartsStep kvs tail =
    (match specTextOf (.dict kvs) with
     | some t => t :: tail
     | Option.none => tail) := by
  cases hd : dget kvs "text" (.str "") with
  | str s =>
    by_cases hps : pyStrip s = ""
    · by_cases hs0 : s = "" <;>
        simp [codePartsStep, specTextOf, hd, hs0, hps, pyStrip_empty]
    · have hs0 : s ≠ "" := ne_empty_of_pyStrip_ne_empty s hps
      simp [codePartsStep, specTextOf, hd, hs0, hps]
  | none => simp [codePartsStep, specTextOf, hd]
  | bool b => simp [codePartsStep, specTextOf, hd]
  | int n => simp [codePartsStep, specTextOf, hd]
  | list xs => simp [codePartsStep, specTextOf, hd]
  | dict kvs2 => simp [codePartsStep, specTextOf, hd]
  | obj attrs => simp [codePartsStep, specTextOf, hd]

/-- The fallback text parts accumulated by the segment loop are
exactly the claim-side trimmed non-empty texts of the canonical
segments it builds. -/
theorem segLoop_parts (raw : List PyVal) :
    (segLoop raw).2 = specSegmentTexts (segLoop raw).1 := by
  induction raw with
  | nil => rfl
  | cons seg rest ih =>
    simp only [segLoop, specSegmentTexts, List.filterMap_cons,
      codePartsStep_eq_spec, ih]
    cases specTextOf (.dict (canonKvs seg)) <;> rfl

/-- The segment loop emits one canonical segment per raw segment. -/
theorem segLoop_length (raw : List PyVal) :
    (segLoop raw).1.length = raw.length := by
  induction raw with
  | nil => rfl
  | cons seg rest ih => simp [segLoop, ih]

/-- Direct whole-text extraction never raises on an attribute-bearing
result. -/
theorem extractDirectText_obj_ok (attrs : List (String × PyVal)) :
    ∃ d, extractDirectText (.obj attrs) = .ok d := by
  unfold extractDirectText
  by_cases h : hasattrB (.obj attrs) "text" = true
  · simp only [h, if_true]
    by_cases ht : truthy (getattrD (.obj attrs) "text" .none) = true <;>
      simp [ht]
  · simp [h]

/-- C7: format_speaker_transcript emits no line for any segment whose
text is null, non-string, or empty after trimming (including
whitespace-only text): its output on any segment list equals its
output on the sublist of line-emitting segments, and exactly one line
is produced per line-emitting segment, so skipped segments leave no
placeholder line. -/
theorem format_speaker_transcript_skips_empty_text (segs : List PyVal) :
    format_speaker_transcript (.list segs) =
      format_speaker_transcript (.list (segs.filter emitsLine)) ∧
    (speakerLines segs).length = (segs.filter emitsLine).length := by
  have h := speakerLines_skips_invalid_text segs
  exact ⟨by simp [format_speaker_transcript, h.1], h.2⟩

/-! ## Claims about transcription -/

/-- C3: the claim states transcribe_file never raises for malformed
optional fields, and the function's own documentation lists only the
file-not-found and validation errors; but a mapping result whose
optional text field is null makes the code call strip() on None, which
raises an attribute error.  This theorem evaluates the code at that
failing input. -/
theorem transcribe_file_raises_on_null_text_field :
    transcribe_file true "small" "cpu" Option.none
      (.dict [("segments", .list []), ("text", .none)]) =
    .error (.attributeError "object has no attribute strip") := rfl

/-- C4 counterexample: the claim says a result whose segments field is
typed as a string yields canonical segments == [] and text == "", but
an attribute-bearing result with segments "ab" is converted
character-wise, yielding two stub segments. -/
theorem transcribe_attr_string_segments_not_empty :
    transcribe_file true "small" "cpu" Option.none
      (.obj [("segments", .str "ab")]) =
    .ok { text := ""
          segments := [.dict [("text", .str ""), ("start", .int 0), ("end", .int 0)],
                       .dict [("text", .str ""), ("start", .int 0), ("end", .int 0)]]
          language := .none } := rfl

/-- C4 (amended): a mapping-shaped result whose segments value is a
string (not a list) yields canonical segments == [] (and text == ""
when the whole-text field is also absent), while an attribute-shaped
result whose segments value is a string is converted element-wise by
the list() fallback, yielding one stub segment per character. -/
theorem transcribe_segments_extraction (kvs attrs : List (String × PyVal))
    (s t : String) :
    (lookupKey kvs "segments" = some (.str s) →
     lookupKey kvs "text" = Option.none →
     lookupKey kvs "language" = Option.none →
     transcribe_file true "small" "cpu" Option.none (.dict kvs) =
       .ok { text := "", segments := [], language := .none })
    ∧ (lookupKey attrs "segments" = some (.str t) →
       ∃ res, transcribe_file true "small" "cpu" Option.none (.obj attrs) =
         .ok res ∧ res.segments.length = t.length) := by
  constructor
  · intro h1 h2 h3
    simp [transcribe_file, extractSegmentsRaw, extractDirectText,
      extractLanguage, dget, h1, h2, h3, segLoop, truthy, pyStrip_empty]
  · intro h4
    obtain ⟨d, hdt⟩ := extractDirectText_obj_ok attrs
    have hraw : extractSegmentsRaw (.obj attrs) =
        t.data.map (fun c => PyVal.str (String.mk [c])) := by
      simp [extractSegmentsRaw, hasattrB, getattrD, h4, pyIter]
    have hmain : transcribe_file true "small" "cpu" Option.none (.obj attrs) =
        .ok { text :=
                (if d == "" &&
                    !((segLoop (extractSegmentsRaw (.obj attrs))).2.isEmpty)
                 then pyStrip (String.intercalate " "
                   (segLoop (extractSegmentsRaw (.obj attrs))).2)
                 else d)
              segments := (segLoop (extractSegmentsRaw (.obj attrs))).1
              language := extractLanguage (.obj attrs) Option.none } := by
      simp only [transcribe_file, hdt]
      rfl
    refine ⟨_, hmain, ?_⟩
    show ((segLoop (extractSegmentsRaw (.obj attrs))).1).length = t.length
    rw [segLoop_length, hraw, List.length_map]
    rfl

/-- C4 witness: the amended statement instantiated at scenario F's
mapping result and at an attribute result with a two-character
segments string. -/
theorem transcribe_segments_extraction_witness :
    (transcribe_file true "small" "cpu" Option.none
       (.dict [("segments", .str "not a list")]) =
     .ok { text := "", segments := [], language := .none })
    ∧ (∃ res, transcribe_file true "small" "cpu" Option.none
         (.obj [("segments", .str "ab")]) = .ok res ∧
       res.segments.length = ("ab" : String).length) :=
  ⟨(transcribe_segments_extraction [("segments", .str "not a list")]
      [("segments", .str "ab")] "not a list" "ab").1 rfl rfl rfl,
   (transcribe_segments_extraction [("segments", .str "not a list")]
      [("segments", .str "ab")] "not a list" "ab").2 rfl⟩

/-- C5 counterexample: the claim says the canonical text equals the
direct whole-text field whenever that field is present and non-empty,
but a present, non-empty, whitespace-only direct field is trimmed away
and the segment concatenation is used instead. -/
theorem transcribe_whitespace_direct_text_falls_back :
    transcribe_file true "small" "cpu" Option.none
      (.dict [("text", .str "   "),
              ("segments", .list [.dict [("text", .str "hi")]])]) =
    .ok { text := "hi"
          segments := [.dict [("text", .str "hi")]]
          language := .none } := rfl

/-- C5 (amended): the canonical full text equals the trimmed direct
whole-text field whenever that trims to a non-empty string, and
otherwise (including a whitespace-only direct field) equals the
concatenation, in sequence order and separated by single spaces, of
each segment's trimmed non-empty string text. -/
theorem transcribe_text_direct_precedence (rawResult : PyVal)
    (language : Option String) (res : WhisperResult)
    (h : transcribe_file true "small" "cpu" language rawResult = .ok res) :
    ∃ direct, extractDirectText rawResult = .ok direct ∧
      (direct ≠ "" → res.text = direct) ∧
      (direct = "" → res.text =
        pyStrip (String.intercalate " " (specSegmentTexts res.segments))) := by
  cases hdt : extractDirectText rawResult with
  | error e =>
    exfalso
    unfold transcribe_file at h
    simp [hdt] at h
  | ok direct =>
    unfold transcribe_file at h
    rw [hdt] at h
    simp only [Bool.not_true, Bool.false_eq_true, if_false] at h
    have h' :
        ({ text :=
             (if direct == "" &&
                 !((segLoop (extractSegmentsRaw rawResult)).2.isEmpty)
              then pyStrip (String.intercalate " "
                (segLoop (extractSegmentsRaw rawResult)).2)
              else direct)
           segments := (segLoop (extractSegmentsRaw rawResult)).1
           language := extractLanguage rawResult language } : WhisperResult)
        = res := by
      exact Except.ok.inj h
    refine ⟨direct, rfl, ?_, ?_⟩
    · intro hne
      rw [← h']
      simp [hne]
    · intro heq
      subst heq
      rw [← h']
      have hparts := segLoop_parts (extractSegmentsRaw rawResult)
      by_cases hemp : (segLoop (extractSegmentsRaw rawResult)).2.isEmpty = true
      · have hnil : (segLoop (extractSegmentsRaw rawResult)).2 = [] :=
          List.isEmpty_iff.mp hemp
        have hspec : specSegmentTexts
            (segLoop (extractSegmentsRaw rawResult)).1 = [] := by
          rw [← hparts, hnil]
        simp [hemp, hspec, pyStrip_empty]
        rfl
      · have hemp' : (segLoop (extractSegmentsRaw rawResult)).2.isEmpty = false := by
          simpa using hemp
        simp [hemp', ← hparts]

/-- C5 witness: the amended statement at scenario E's input, whose
direct whole-text field takes precedence over the segment text. -/
theorem transcribe_text_direct_precedence_witness :
    ∃ direct,
      extractDirectText
        (.dict [("text", .str "Direct text from result"),
                ("segments", .list [.dict [("text", .str "Hello")]])]) =
        .ok direct ∧
      (direct ≠ "" →
        ({ text := "Direct text from result"
           segments := [.dict [("text", .str "Hello")]]
           language := .none } : WhisperResult).text = direct) ∧
      (direct = "" →
        ({ text := "Direct text from result"
           segments := [.dict [("text", .str "Hello")]]
           language := .none } : WhisperResult).text =
          pyStrip (String.intercalate " " (specSegmentTexts
            ({ text := "Direct text from result"
               segments := [.dict [("text", .str "Hello")]]
               language := .none } : WhisperResult).segments))) :=
  transcribe_text_direct_precedence
    (.dict [("text", .str "Direct text from result"),
            ("segments", .list [.dict [("text", .str "Hello")]])])
    Option.none
    { text := "Direct text from result"
      segments := [.dict [("text", .str "Hello")]]
      language := .none }
    rfl

/-! ## Claims about the orchestrator -/

/-- Every failure of summarize_transcript is a validation error or a
runtime error: the except chain re-raises those two classes and wraps
everything else into a runtime error. -/
theorem summarize_transcript_err_class (t m : String) (k : Option String)
    (r : Except PyErr PyVal) (e : PyErr)
    (h : summarize_transcript t m k r = .error e) :
    (∃ s, e = .valueError s) ∨ (∃ s, e = .runtimeError s) := by
  unfold summarize_transcript at h
  repeat' split at h
  all_goals (try cases h)
  all_goals simp

/-- Every failure of the _process_summary stage is a validation error
or a runtime error. -/
theorem process_summary_err_class (t m key : String)
    (r : Except PyErr PyVal) (e : PyErr)
    (h : process_summary t m key r = .error e) :
    (∃ s, e = .valueError s) ∨ (∃ s, e = .runtimeError s) := by
  unfold process_summary at h
  dsimp only at h
  split at h
  · exact Or.inl ⟨_, (Except.error.inj h).symm⟩
  · exact summarize_transcript_err_class _ _ _ _ _ h

/-- C1 counterexample: the claim says a validation error raised by the
summarization stage (here the missing credential) propagates out of
the orchestrator's entry point, but main catches it and downgrades it
to a warning, returning normally. -/
theorem main_summary_catches_validation_error :
    main_summary_step true "" "gpt-4o-mini" "hello" (.ok (.obj [])) =
    .ok (.warned (.valueError "OPENAI_API_KEY is required for summarization. Set it as an environment variable.")) := rfl

/-- The summarization step of main downgrades every stage failure to a
warning and never itself fails: every error of _process_summary is a
validation or runtime error, and both are caught. -/
theorem main_summary_downgrades (apiKeyEnv model transcript : String)
    (resp : Except PyErr PyVal) :
    (∀ e, process_summary transcript model apiKeyEnv resp = .error e →
      main_summary_step true apiKeyEnv model transcript resp = .ok (.warned e))
    ∧ ∃ s, main_summary_step true apiKeyEnv model transcript resp = .ok s := by
  constructor
  · intro e he
    have hclass := process_summary_err_class _ _ _ _ _ he
    unfold main_summary_step
    rw [if_pos rfl, he]
    rcases hclass with ⟨s, rfl⟩ | ⟨s, rfl⟩ <;> rfl
  · cases hps : process_summary transcript model apiKeyEnv resp with
    | ok s =>
      exact ⟨.wrote s, by unfold main_summary_step; rw [if_pos rfl, hps]⟩
    | error e =>
      have hclass := process_summary_err_class _ _ _ _ _ hps
      refine ⟨.warned e, ?_⟩
      unfold main_summary_step
      rw [if_pos rfl, hps]
      rcases hclass with ⟨s, rfl⟩ | ⟨s, rfl⟩ <;> rfl

/-- C1 (amended): validation and not-found errors propagate unchanged
through the transcription, alignment and diarization stages out of
main — those stage errors become main's errors verbatim — but in the
summarization stage the orchestrator catches validation and runtime
errors, including a missing-credential validation error, and
downgrades them to a printed warning, so main returns normally
whenever every stage before summarization succeeds. -/
theorem main_stage_error_policy (model device : String)
    (language : Option String) (raw : PyVal)
    (alignFlag diarizeFlag summarizeFlag : Bool)
    (alignResp : Except PyErr PyVal) (hfTokenEnv : String)
    (minS maxS : Option Int) (diarizeResp assignResp : Except PyErr PyVal)
    (apiKeyEnv summaryModel : String) (summaryResp : Except PyErr PyVal)
    (e : PyErr) :
    (transcribe_file true model device language raw = .error e →
      main_run true model device language raw alignFlag alignResp diarizeFlag
        hfTokenEnv minS maxS diarizeResp assignResp summarizeFlag apiKeyEnv
        summaryModel summaryResp = .error e)
    ∧ (∀ wr, transcribe_file true model device language raw = .ok wr →
      process_alignment true wr.segments (effectiveLang language wr.language)
        device alignResp = .error e →
      main_run true model device language raw true alignResp diarizeFlag
        hfTokenEnv minS maxS diarizeResp assignResp summarizeFlag apiKeyEnv
        summaryModel summaryResp = .error e)
    ∧ (∀ wr segs, transcribe_file true model device language raw = .ok wr →
      (if alignFlag then
         process_alignment true wr.segments
           (effectiveLang language wr.language) device alignResp
       else .ok wr.segments) = .ok segs →
      process_diarization true segs device hfTokenEnv minS maxS diarizeResp
        assignResp = .error e →
      main_run true model device language raw alignFlag alignResp true
        hfTokenEnv minS maxS diarizeResp assignResp summarizeFlag apiKeyEnv
        summaryModel summaryResp = .error e)
    ∧ (∀ wr segs segs2, transcribe_file true model device language raw = .ok wr →
      (if alignFlag then
         process_alignment true wr.segments
           (effectiveLang language wr.language) device alignResp
       else .ok wr.segments) = .ok segs →
      (if diarizeFlag then
         process_diarization true segs device hfTokenEnv minS maxS
           diarizeResp assignResp
       else .ok segs) = .ok segs2 →
      (process_summary wr.text summaryModel apiKeyEnv summaryResp = .error e →
        main_run true model device language raw alignFlag alignResp diarizeFlag
          hfTokenEnv minS maxS diarizeResp assignResp true apiKeyEnv
          summaryModel summaryResp = .ok (.warned e))
      ∧ ∃ s, main_run true model device language raw alignFlag alignResp
          diarizeFlag hfTokenEnv minS maxS diarizeResp assignResp summarizeFlag
          apiKeyEnv summaryModel summaryResp = .ok s) := by
  refine ⟨fun h1 => ?_, fun wr h1 h2 => ?_, fun wr segs h1 h2 h3 => ?_,
    fun wr segs segs2 h1 h2 h3 => ⟨fun h4 => ?_, ?_⟩⟩
  · simp [main_run, h1]
  · simp [main_run, h1, h2]
  · simp [main_run, h1, h2, h3]
  · simp only [main_run, h1, h2, h3]
    simp only [Bool.not_true, Bool.false_eq_true, if_false]
    exact (main_summary_downgrades apiKeyEnv summaryModel wr.text
      summaryResp).1 e h4
  · simp only [main_run, h1, h2, h3]
    simp only [Bool.not_true, Bool.false_eq_true, if_false]
    cases summarizeFlag with
    | false => exact ⟨.skipped, rfl⟩
    | true =>
      exact (main_summary_downgrades apiKeyEnv summaryModel wr.text
        summaryResp).2

/-- C1 witness: the amended statement at concrete runs — an empty
model name makes the transcription stage's validation error become
main's error; a missing diarization token makes that stage's
validation error become main's error; and a missing summarization
credential is downgraded to a warning while main returns normally. -/
theorem main_stage_error_policy_witness :
    (main_run true "" "cpu" Option.none (.obj []) false (.ok .none) false ""
       Option.none Option.none (.ok .none) (.ok .none) false "" ""
       (.ok .none) = .error (.valueError "model_name cannot be empty"))
    ∧ (main_run true "small" "cpu" Option.none
         (.dict [("text", .str "hi"), ("segments", .list [])]) false
         (.ok .none) true "" Option.none Option.none (.ok .none) (.ok .none)
         false "" "" (.ok .none) =
       .error (.valueError "HUGGINGFACE_TOKEN is required for diarization. Set it as an environment variable."))
    ∧ (main_run true "small" "cpu" Option.none
         (.dict [("text", .str "hi"), ("segments", .list [])]) false
         (.ok .none) false "" Option.none Option.none (.ok .none) (.ok .none)
         true "" "gpt-4o-mini" (.ok .none) =
       .ok (.warned (.valueError "OPENAI_API_KEY is required for summarization. Set it as an environment variable."))) :=
  ⟨(main_stage_error_policy "" "cpu" Option.none (.obj []) false false false
      (.ok .none) "" Option.none Option.none (.ok .none) (.ok .none) "" ""
      (.ok .none) (.valueError "model_name cannot be empty")).1 rfl,
   (main_stage_error_policy "small" "cpu" Option.none
      (.dict [("text", .str "hi"), ("segments", .list [])]) false true false
      (.ok .none) "" Option.none Option.none (.ok .none) (.ok .none) "" ""
      (.ok .none)
      (.valueError "HUGGINGFACE_TOKEN is required for diarization. Set it as an environment variable.")).2.2.1
      { text := "hi", segments := [], language := .none } [] rfl rfl rfl,
   ((main_stage_error_policy "small" "cpu" Option.none
      (.dict [("text", .str "hi"), ("segments", .list [])]) false false true
      (.ok .none) "" Option.none Option.none (.ok .none) (.ok .none) ""
      "gpt-4o-mini" (.ok .none)
      (.valueError "OPENAI_API_KEY is required for summarization. Set it as an environment variable.")).2.2.2
      { text := "hi", segments := [], language := .none } [] [] rfl rfl rfl).1
      rfl⟩

end VoiceNotes
